import Mathlib

/-!
Verification of the garden control-plane components: the Linux disk-quota
manager (`backend/linux_backend/quota_manager/quota_manager.go`) and the
warden control-protocol client (`connection` package).

Go `uint64`/`uint32` values are embedded as `Nat` together with explicit
reduction modulo `2 ^ 64` at the points where the Go arithmetic can wrap.
Shelling out, pipes and HTTP are embedded by passing the relevant external
data (tool output, HTTP response) to the function as an explicit argument.
-/

namespace Garden

/-- The modulus of Go's `uint64` type. -/
def U64 : Nat := 2 ^ 64

/-- `backend.DiskLimits` (the same shape as `warden.DiskLimits`,
`src/unnamed/part_000` lines 425-434): block soft/hard, inode soft/hard and
byte soft/hard limits, all `uint64`. -/
@[ext]
structure DiskLimits where
  blockSoft : Nat
  blockHard : Nat
  inodeSoft : Nat
  inodeHard : Nat
  byteSoft : Nat
  byteHard : Nat
  deriving Repr, DecidableEq

/-- `backend.ContainerDiskStat`: bytes used and inodes used. -/
structure ContainerDiskStat where
  bytesUsed : Nat
  inodesUsed : Nat
  deriving Repr, DecidableEq

namespace QuotaManager

/-- `QUOTA_BLOCK_SIZE` from `quota_manager.go` line 30. -/
def QUOTA_BLOCK_SIZE : Nat := 1024

/-- The limit-rewriting performed by `LinuxQuotaManager.SetLimits`
(`quota_manager.go` lines 57-64): when `ByteSoft` is nonzero, `BlockSoft`
is overwritten with `(ByteSoft + QUOTA_BLOCK_SIZE - 1) / QUOTA_BLOCK_SIZE`
computed in `uint64` arithmetic, and likewise for `ByteHard`/`BlockHard`.
Since `byteSoft + 1024 - 1` never truncates in `Nat`, the wrap of the Go
addition is captured by a single reduction `% U64` before the division. -/
def SetLimits (limits : DiskLimits) : DiskLimits :=
  let limits :=
    if limits.byteSoft ≠ 0 then
      { limits with
          blockSoft := (limits.byteSoft + QUOTA_BLOCK_SIZE - 1) % U64 / QUOTA_BLOCK_SIZE }
    else limits
  let limits :=
    if limits.byteHard ≠ 0 then
      { limits with
          blockHard := (limits.byteHard + QUOTA_BLOCK_SIZE - 1) % U64 / QUOTA_BLOCK_SIZE }
    else limits
  limits

/-- The argument vector passed to the `setquota` tool by `SetLimits`
(`quota_manager.go` lines 66-79). -/
def setquotaArgs (uid : Nat) (mountPoint : String) (limits : DiskLimits) : List String :=
  let l := SetLimits limits
  ["-u", toString uid,
   toString l.blockSoft, toString l.blockHard,
   toString l.inodeSoft, toString l.inodeHard,
   mountPoint]

/-- Characters treated as field separators by the `fmt.Fscanf`
format `"%d %d %d %d %d %d %d %d"` on a single `repquota` output line. -/
def isFieldSep (c : Char) : Bool :=
  c = ' ' || c = '\t'

/-- Split a line into its maximal runs of non-separator characters
(whitespace tokenisation, empty tokens dropped). -/
def fields : List Char → List (List Char)
  | [] => []
  | c :: cs =>
    if isFieldSep c then fields cs
    else
      match fields cs with
      | [] => [[c]]
      | w :: ws =>
        match cs with
        | [] => [[c]]
        | c' :: _ => if isFieldSep c' then [c] :: w :: ws else (c :: w) :: ws

/-- Decimal value of a digit string, `none` if empty or non-digit. -/
def parseDecimal : List Char → Option Nat
  | [] => none
  | l => l.foldlM (fun acc c => if c.isDigit then some (acc * 10 + (c.toNat - 48)) else none) 0

/-- Scan one decimal field into a Go unsigned integer of width `w` bits
(`%d` into a `uint32` or `uint64` destination): digits only, value below
`2 ^ w` (on overflow `fmt.Fscanf` reports a range error). -/
def scanUintW (w : Nat) (t : List Char) : Option Nat :=
  match parseDecimal t with
  | some v => if v < 2 ^ w then some v else none
  | none => none

/-- Destination widths of the `fmt.Fscanf` call in `GetLimits`
(`quota_manager.go` lines 107-118): positions 1, 2, 5, 6 go into the
`uint32` variable `skip`; positions 3, 4, 7, 8 go into the `uint64`
fields of `backend.DiskLimits`. -/
def getLimitsWidths : List Nat := [32, 32, 64, 64, 32, 32, 64, 64]

/-- Destination widths of the `fmt.Fscanf` call in `GetUsage`
(`quota_manager.go` lines 148-159): positions 2 and 6 go into the
`uint64` fields of `backend.ContainerDiskStat`; the rest go into the
`uint32` variable `skip`. -/
def getUsageWidths : List Nat := [32, 64, 32, 32, 32, 64, 32, 32]

/-- The `fmt.Fscanf(repR, "%d %d %d %d %d %d %d %d", ...)` step of
`GetLimits` and `GetUsage`: eight whitespace-separated decimal fields read
from the `repquota` output line, each scanned into its destination's
width. -/
def scanf8 (widths : List Nat) (line : List Char) : Option (List Nat) :=
  match fields line with
  | t1 :: t2 :: t3 :: t4 :: t5 :: t6 :: t7 :: t8 :: _ =>
    (widths.zip [t1, t2, t3, t4, t5, t6, t7, t8]).mapM fun wt => scanUintW wt.1 wt.2
  | _ => none

/-- `LinuxQuotaManager.GetLimits` (`quota_manager.go` lines 82-121): scan
eight fields of the `repquota` output, keeping fields 3, 4 (block
soft/hard) and 7, 8 (inode soft/hard); all other fields are skipped and
the byte fields of the result stay at their zero value. -/
def GetLimits (line : List Char) : Option DiskLimits :=
  match scanf8 getLimitsWidths line with
  | some [_, _, f3, f4, _, _, f7, f8] =>
    some { blockSoft := f3, blockHard := f4, inodeSoft := f7, inodeHard := f8,
           byteSoft := 0, byteHard := 0 }
  | _ => none

/-- `LinuxQuotaManager.GetUsage` (`quota_manager.go` lines 123-162): scan
the same eight fields, keeping field 2 (bytes used) and field 6 (inodes
used). -/
def GetUsage (line : List Char) : Option ContainerDiskStat :=
  match scanf8 getUsageWidths line with
  | some [_, f2, _, _, _, f6, _, _] =>
    some { bytesUsed := f2, inodesUsed := f6 }
  | _ => none

/-- Go's `strings.Split(s, sep)` for a one-character separator: split at
every occurrence of the separator, keeping empty segments. -/
def splitOn (sep : Char) : List Char → List (List Char)
  | [] => [[]]
  | c :: cs =>
    if c = sep then [] :: splitOn sep cs
    else
      match splitOn sep cs with
      | [] => [[c]]
      | w :: ws => (c :: w) :: ws

/-- Go's `strings.Trim(s, cutset)` for the one-character cutset: drop the
character from both ends. -/
def trimChar (cut : Char) (l : List Char) : List Char :=
  ((l.dropWhile (fun c => c = cut)).reverse.dropWhile (fun c => c = cut)).reverse

/-- The mount-point computation of `New` (`quota_manager.go` lines 46-47):
split the whole `df -P` output on single spaces, take the last word, and
trim newline characters from it. -/
def mountPointOf (dfOut : List Char) : List Char :=
  let dfOutputWords := splitOn ' ' dfOut
  trimChar '\n' (dfOutputWords.getLastD [])

/-- Modelled from the spec: the reading of mount discovery in which the
mount point is "the last whitespace-separated token of the final line as
the mount point" — drop trailing newlines, take the final line, and take
its last whitespace-separated token.  This is the claimed behaviour, to be
compared against `mountPointOf`, which embeds the source. -/
def specFinalLineLastToken (dfOut : List Char) : List Char :=
  let lines := splitOn '\n' (dfOut.reverse.dropWhile (fun c => c = '\n')).reverse
  (fields (lines.getLastD [])).getLastD []

end QuotaManager

namespace Connection

/-- One of the two `http.Client` values held by a `connection`; only the
`DisableKeepAlives` setting of its transport is relevant here. -/
structure HTTPClient where
  disableKeepAlives : Bool
  deriving Repr, DecidableEq

/-- The `connection` struct: a default client and a client whose transport
has keep-alives disabled. -/
structure Conn where
  httpClient : HTTPClient
  noKeepaliveClient : HTTPClient
  deriving Repr, DecidableEq

/-- `connection.New` (`src/unnamed/part_001` lines 69-87): `httpClient`
uses a transport with `DisableKeepAlives` at its zero value `false`;
`noKeepaliveClient` sets `DisableKeepAlives: true`. -/
def New : Conn :=
  { httpClient := { disableKeepAlives := false },
    noKeepaliveClient := { disableKeepAlives := true } }

/-- The client through which `post` issues its request (line 687). -/
def postClient (c : Conn) : HTTPClient := c.httpClient

/-- The client through which `postWithStreamedResponse` issues its request
(line 702). -/
def postWithStreamedResponseClient (c : Conn) : HTTPClient := c.noKeepaliveClient

/-- The client through which `postWithStreamedRequest` issues its request
(line 716). -/
def postWithStreamedRequestClient (c : Conn) : HTTPClient := c.noKeepaliveClient

/-- The client through which `postWithProcessPayloadResponse` issues its
request (line 736). -/
def postWithProcessPayloadResponseClient (c : Conn) : HTTPClient := c.httpClient

/-- The client used by `Run` (it posts via
`postWithProcessPayloadResponse`, line 193). -/
def runClient (c : Conn) : HTTPClient := postWithProcessPayloadResponseClient c

/-- The client used by `Attach` (it posts via
`postWithProcessPayloadResponse`, line 237). -/
def attachClient (c : Conn) : HTTPClient := postWithProcessPayloadResponseClient c

/-- The client used by `StreamIn` (it posts via `postWithStreamedRequest`,
line 477). -/
def streamInClient (c : Conn) : HTTPClient := postWithStreamedRequestClient c

/-- The client used by `StreamOut` (it posts via
`postWithStreamedResponse`, line 492). -/
def streamOutClient (c : Conn) : HTTPClient := postWithStreamedResponseClient c

/-- An HTTP response as the posting helpers see it: numeric status code,
status text (`httpResp.Status`), and a body of type `β` (for `post` the
body is the result of decoding one message from it; for the streaming
helpers it is the still-open stream). -/
structure HTTPResponse (β : Type) where
  statusCode : Nat
  status : String
  body : β
  deriving Repr, DecidableEq

/-- `connection.post` after the request has been written and the response
received (`part_001` lines 679-699): a status outside 200-299 yields an
error carrying the status text; otherwise the result is whatever decoding
one message from the body yields.  `readMessage` stands for
`transport.ReadMessage(httpResp.Body, res)`. -/
def post {α : Type} (resp : HTTPResponse (Except String α)) : Except String α :=
  if resp.statusCode < 200 ∨ 299 < resp.statusCode then Except.error resp.status
  else resp.body

/-- `connection.postWithStreamedResponse` (`part_001` lines 701-713): any
status other than exactly 200 closes the body and yields an error carrying
the status text; a 200 hands the open body back. -/
def postWithStreamedResponse {β : Type} (resp : HTTPResponse β) : Except String β :=
  if resp.statusCode ≠ 200 then Except.error resp.status
  else Except.ok resp.body

/-- `connection.postWithStreamedRequest` (`part_001` lines 715-726): any
status other than exactly 200 yields an error carrying the status text. -/
def postWithStreamedRequest {β : Type} (resp : HTTPResponse β) : Except String Unit :=
  if resp.statusCode ≠ 200 then Except.error resp.status
  else Except.ok ()

/-- `connection.postWithProcessPayloadResponse` (`part_001` lines
728-747): any status other than exactly 200 closes the body and yields an
error carrying the status text; a 200 hands the open body back. -/
def postWithProcessPayloadResponse {β : Type} (resp : HTTPResponse β) : Except String β :=
  if resp.statusCode ≠ 200 then Except.error resp.status
  else Except.ok resp.body

end Connection

/-- `warden.BandwidthLimits`. -/
structure BandwidthLimits where
  rateInBytesPerSecond : Nat
  burstRateInBytesPerSecond : Nat
  deriving Repr, DecidableEq

/-- `warden.CPULimits`. -/
structure CPULimits where
  limitInShares : Nat
  deriving Repr, DecidableEq

/-- `warden.MemoryLimits`. -/
structure MemoryLimits where
  limitInBytes : Nat
  deriving Repr, DecidableEq

/-- `protocol.LimitBandwidthRequest`: proto-optional fields, `none` when
left unset. -/
structure LimitBandwidthRequest where
  handle : Option String
  rate : Option Nat
  burst : Option Nat
  deriving Repr, DecidableEq

/-- `protocol.LimitBandwidthResponse`. -/
structure LimitBandwidthResponse where
  rate : Option Nat
  burst : Option Nat
  deriving Repr, DecidableEq

/-- `protocol.LimitCpuRequest`. -/
structure LimitCpuRequest where
  handle : Option String
  limitInShares : Option Nat
  deriving Repr, DecidableEq

/-- `protocol.LimitCpuResponse`. -/
structure LimitCpuResponse where
  limitInShares : Option Nat
  deriving Repr, DecidableEq

/-- `protocol.LimitDiskRequest`. -/
structure LimitDiskRequest where
  handle : Option String
  blockSoft : Option Nat
  blockHard : Option Nat
  inodeSoft : Option Nat
  inodeHard : Option Nat
  byteSoft : Option Nat
  byteHard : Option Nat
  deriving Repr, DecidableEq

/-- `protocol.LimitDiskResponse`. -/
structure LimitDiskResponse where
  blockSoft : Option Nat
  blockHard : Option Nat
  inodeSoft : Option Nat
  inodeHard : Option Nat
  byteSoft : Option Nat
  byteHard : Option Nat
  deriving Repr, DecidableEq

/-- `protocol.LimitMemoryRequest`. -/
structure LimitMemoryRequest where
  handle : Option String
  limitInBytes : Option Nat
  deriving Repr, DecidableEq

/-- `protocol.LimitMemoryResponse`. -/
structure LimitMemoryResponse where
  limitInBytes : Option Nat
  deriving Repr, DecidableEq

namespace Connection

/-- The route `LimitBandwidth` posts to (`part_001` line 291). -/
def LimitBandwidth.route : String := "/limit_bandwidth"

/-- The route `CurrentBandwidthLimits` posts to (line 314). -/
def CurrentBandwidthLimits.route : String := "/limit_bandwidth"

/-- The request message built by `LimitBandwidth` (lines 292-296): handle
plus both value fields populated. -/
def LimitBandwidth.request (handle : String) (limits : BandwidthLimits) : LimitBandwidthRequest :=
  { handle := some handle,
    rate := some limits.rateInBytesPerSecond,
    burst := some limits.burstRateInBytesPerSecond }

/-- The request message built by `CurrentBandwidthLimits` (lines 315-317):
only the handle populated. -/
def CurrentBandwidthLimits.request (handle : String) : LimitBandwidthRequest :=
  { handle := some handle, rate := none, burst := none }

/-- The decoding of a `LimitBandwidthResponse` performed by
`LimitBandwidth` (lines 304-307); proto getters default to zero. -/
def LimitBandwidth.decode (res : LimitBandwidthResponse) : BandwidthLimits :=
  { rateInBytesPerSecond := res.rate.getD 0,
    burstRateInBytesPerSecond := res.burst.getD 0 }

/-- The decoding of a `LimitBandwidthResponse` performed by
`CurrentBandwidthLimits` (lines 325-327). -/
def CurrentBandwidthLimits.decode (res : LimitBandwidthResponse) : BandwidthLimits :=
  { rateInBytesPerSecond := res.rate.getD 0,
    burstRateInBytesPerSecond := res.burst.getD 0 }

/-- The route `LimitCPU` posts to (line 335). -/
def LimitCPU.route : String := "/limit_cpu"

/-- The route `CurrentCPULimits` posts to (line 356). -/
def CurrentCPULimits.route : String := "/limit_cpu"

/-- The request message built by `LimitCPU` (lines 336-339). -/
def LimitCPU.request (handle : String) (limits : CPULimits) : LimitCpuRequest :=
  { handle := some handle, limitInShares := some limits.limitInShares }

/-- The request message built by `CurrentCPULimits` (lines 357-359). -/
def CurrentCPULimits.request (handle : String) : LimitCpuRequest :=
  { handle := some handle, limitInShares := none }

/-- The decoding of a `LimitCpuResponse` performed by `LimitCPU`
(lines 347-349). -/
def LimitCPU.decode (res : LimitCpuResponse) : CPULimits :=
  { limitInShares := res.limitInShares.getD 0 }

/-- The decoding of a `LimitCpuResponse` performed by `CurrentCPULimits`
(lines 367-369). -/
def CurrentCPULimits.decode (res : LimitCpuResponse) : CPULimits :=
  { limitInShares := res.limitInShares.getD 0 }

/-- The route `LimitDisk` posts to (line 376). -/
def LimitDisk.route : String := "/limit_disk"

/-- The route `CurrentDiskLimits` posts to (line 412). -/
def CurrentDiskLimits.route : String := "/limit_disk"

/-- The request message built by `LimitDisk` (`part_001` lines 377-388):
the handle and all six limit fields are populated with the caller's values
exactly as supplied — no byte-to-block derivation is performed. -/
def LimitDisk.request (handle : String) (limits : DiskLimits) : LimitDiskRequest :=
  { handle := some handle,
    blockSoft := some limits.blockSoft,
    blockHard := some limits.blockHard,
    inodeSoft := some limits.inodeSoft,
    inodeHard := some limits.inodeHard,
    byteSoft := some limits.byteSoft,
    byteHard := some limits.byteHard }

/-- The request message built by `CurrentDiskLimits` (lines 413-415):
only the handle populated. -/
def CurrentDiskLimits.request (handle : String) : LimitDiskRequest :=
  { handle := some handle,
    blockSoft := none, blockHard := none,
    inodeSoft := none, inodeHard := none,
    byteSoft := none, byteHard := none }

/-- Modelled from the spec: the set-path pre-processing the specification
describes for `LimitDisk` — the byte-to-block derivation of the quota
manager applied to the limits before encoding the request.  This is the
claimed behaviour, to be compared against `LimitDisk.request`, which
embeds the source. -/
def specLimitDiskRequestDerived (handle : String) (limits : DiskLimits) : LimitDiskRequest :=
  LimitDisk.request handle (QuotaManager.SetLimits limits)

/-- The decoding of a `LimitDiskResponse` performed by `LimitDisk`
(lines 396-405). -/
def LimitDisk.decode (res : LimitDiskResponse) : DiskLimits :=
  { blockSoft := res.blockSoft.getD 0,
    blockHard := res.blockHard.getD 0,
    inodeSoft := res.inodeSoft.getD 0,
    inodeHard := res.inodeHard.getD 0,
    byteSoft := res.byteSoft.getD 0,
    byteHard := res.byteHard.getD 0 }

/-- The decoding of a `LimitDiskResponse` performed by
`CurrentDiskLimits` (lines 423-432). -/
def CurrentDiskLimits.decode (res : LimitDiskResponse) : DiskLimits :=
  { blockSoft := res.blockSoft.getD 0,
    blockHard := res.blockHard.getD 0,
    inodeSoft := res.inodeSoft.getD 0,
    inodeHard := res.inodeHard.getD 0,
    byteSoft := res.byteSoft.getD 0,
    byteHard := res.byteHard.getD 0 }

/-- The route `LimitMemory` posts to (line 439). -/
def LimitMemory.route : String := "/limit_memory"

/-- The route `CurrentMemoryLimits` posts to (line 460). -/
def CurrentMemoryLimits.route : String := "/limit_memory"

/-- The request message built by `LimitMemory` (lines 440-443). -/
def LimitMemory.request (handle : String) (limits : MemoryLimits) : LimitMemoryRequest :=
  { handle := some handle, limitInBytes := some limits.limitInBytes }

/-- The request message built by `CurrentMemoryLimits` (lines 461-463). -/
def CurrentMemoryLimits.request (handle : String) : LimitMemoryRequest :=
  { handle := some handle, limitInBytes := none }

/-- The decoding of a `LimitMemoryResponse` performed by `LimitMemory`
(lines 451-453). -/
def LimitMemory.decode (res : LimitMemoryResponse) : MemoryLimits :=
  { limitInBytes := res.limitInBytes.getD 0 }

/-- The decoding of a `LimitMemoryResponse` performed by
`CurrentMemoryLimits` (lines 471-473). -/
def CurrentMemoryLimits.decode (res : LimitMemoryResponse) : MemoryLimits :=
  { limitInBytes := res.limitInBytes.getD 0 }

end Connection

/-- The `protocol.ProcessPayload` source enum (`ProcessPayload_stdin`,
`ProcessPayload_stdout`, `ProcessPayload_stderr`); `stdin` is the first
value and hence the proto getter default. -/
inductive PayloadSource
  | stdin
  | stdout
  | stderr
  deriving Repr, DecidableEq

/-- `warden.ProcessStreamSource`.  Modelled from the spec: the `warden`
stream-source type is not among the given sources; §3 describes a chunk
"tagged with a source (stdin/stdout/stderr)", and `streamPayloads` names
the three values `ProcessStreamSourceStdin/Stdout/Stderr`, `Stdin` being
the zero value a `warden.ProcessStream` literal leaves unset. -/
inductive ProcessStreamSource
  | stdin
  | stdout
  | stderr
  deriving Repr, DecidableEq

/-- `protocol.ProcessPayload`: proto-optional process ID, source, data and
exit status. -/
structure ProcessPayload where
  processId : Option Nat
  source : Option PayloadSource
  data : Option String
  exitStatus : Option Nat
  deriving Repr, DecidableEq

/-- `warden.ProcessStream`.  Modelled from the spec: the `warden` stream
item type is not among the given sources; §3 describes an item that either
carries source-tagged bytes or a terminal exit status, and `streamPayloads`
populates `Source`/`Data` for chunk items and only `ExitStatus` (leaving
the others at their zero values) for the terminal item. -/
structure ProcessStream where
  source : ProcessStreamSource
  data : String
  exitStatus : Option Nat
  deriving Repr, DecidableEq

namespace Connection

/-- One `transport.ReadMessage` outcome on a run/attach response body:
either a decoded `ProcessPayload` or a read error (end of stream
included). -/
inductive ReadResult
  | msg (p : ProcessPayload)
  | readErr
  deriving Repr, DecidableEq

/-- The `switch payload.GetSource()` conversion inside `streamPayloads`
(`part_001` lines 659-666); the proto getter defaults to `stdin`. -/
def convertSource (s : Option PayloadSource) : ProcessStreamSource :=
  match s.getD PayloadSource.stdin with
  | PayloadSource.stdin => ProcessStreamSource.stdin
  | PayloadSource.stdout => ProcessStreamSource.stdout
  | PayloadSource.stderr => ProcessStreamSource.stderr

/-- The sequence of items `streamPayloads` sends on its channel, in order
(`part_001` lines 641-673): read messages until a read error; a payload
carrying an exit status is republished as an item with only the exit
status set and ends the loop; any other payload is republished as a
source-tagged data chunk. -/
def streamEmitted : List ReadResult → List ProcessStream
  | [] => []
  | ReadResult.readErr :: _ => []
  | ReadResult.msg p :: rest =>
    match p.exitStatus with
    | some status =>
      [{ source := ProcessStreamSource.stdin, data := "", exitStatus := some status }]
    | none =>
      { source := convertSource p.source,
        data := p.data.getD "",
        exitStatus := none } :: streamEmitted rest

/-- The observable outcome of one `streamPayloads` goroutine: the ordered
items sent on the channel, whether the channel was closed, and whether the
response body was closed. -/
structure StreamOutcome where
  emitted : List ProcessStream
  channelClosed : Bool
  readerClosed : Bool
  deriving Repr, DecidableEq

/-- `connection.streamPayloads` (`part_001` lines 641-677): every exit
from the loop falls through to `close(stream)` and `reader.Close()`. -/
def streamPayloads (body : List ReadResult) : StreamOutcome :=
  { emitted := streamEmitted body,
    channelClosed := true,
    readerClosed := true }

/-- `connection.Run` after the request has been encoded and the response
received (`part_001` lines 192-234): a non-200 status is an error; then
exactly one message is read synchronously from the body — its process ID
(proto getter default 0) is the returned ID — and the remainder of the
body is handed to `streamPayloads`. -/
def Run (resp : HTTPResponse (List ReadResult)) : Except String (Nat × StreamOutcome) :=
  match postWithProcessPayloadResponse resp with
  | Except.error e => Except.error e
  | Except.ok body =>
    match body with
    | ReadResult.msg firstResponse :: rest =>
      Except.ok (firstResponse.processId.getD 0, streamPayloads rest)
    | _ => Except.error "read message failed"

/-- `connection.Attach` after the request has been encoded and the
response received (`part_001` lines 236-254): a non-200 status is an
error; otherwise the whole body — no first message is read — is handed to
`streamPayloads`. -/
def Attach (resp : HTTPResponse (List ReadResult)) : Except String StreamOutcome :=
  match postWithProcessPayloadResponse resp with
  | Except.error e => Except.error e
  | Except.ok body => Except.ok (streamPayloads body)

end Connection

namespace QuotaManager

lemma setLimits_blockSoft (l : DiskLimits) :
    (SetLimits l).blockSoft =
      if l.byteSoft = 0 then l.blockSoft
      else (l.byteSoft + QUOTA_BLOCK_SIZE - 1) % U64 / QUOTA_BLOCK_SIZE := by
  unfold SetLimits
  by_cases hs : l.byteSoft = 0 <;> by_cases hh : l.byteHard = 0 <;> simp [hs, hh]

lemma setLimits_blockHard (l : DiskLimits) :
    (SetLimits l).blockHard =
      if l.byteHard = 0 then l.blockHard
      else (l.byteHard + QUOTA_BLOCK_SIZE - 1) % U64 / QUOTA_BLOCK_SIZE := by
  unfold SetLimits
  by_cases hs : l.byteSoft = 0 <;> by_cases hh : l.byteHard = 0 <;> simp [hs, hh]

lemma setLimits_inodeSoft (l : DiskLimits) : (SetLimits l).inodeSoft = l.inodeSoft := by
  unfold SetLimits
  by_cases hs : l.byteSoft = 0 <;> by_cases hh : l.byteHard = 0 <;> simp [hs, hh]

lemma setLimits_inodeHard (l : DiskLimits) : (SetLimits l).inodeHard = l.inodeHard := by
  unfold SetLimits
  by_cases hs : l.byteSoft = 0 <;> by_cases hh : l.byteHard = 0 <;> simp [hs, hh]

lemma splitOn_no_sep (sep : Char) (l : List Char) (h : sep ∉ l) : splitOn sep l = [l] := by
  induction l with
  | nil => rfl
  | cons c cs ih =>
    rw [List.mem_cons, not_or] at h
    obtain ⟨h1, h2⟩ := h
    have h1' : ¬ c = sep := fun hc => h1 hc.symm
    simp [splitOn, ih h2, h1']

lemma splitOn_last_after_sep (sep : Char) (ys : List Char) (h : sep ∉ ys) :
    ∀ xs : List Char, ∃ ws, ws ≠ [] ∧ splitOn sep (xs ++ sep :: ys) = ws ++ [ys] := by
  intro xs
  induction xs with
  | nil =>
    refine ⟨[[]], by simp, ?_⟩
    simp [splitOn, splitOn_no_sep sep ys h]
  | cons x xs ih =>
    obtain ⟨ws, hne, hws⟩ := ih
    by_cases hx : x = sep
    · exact ⟨[] :: ws, by simp, by simp [splitOn, hx, hws]⟩
    · obtain ⟨w0, ws0, rfl⟩ : ∃ a b, ws = a :: b := by
        cases ws with
        | nil => exact absurd rfl hne
        | cons a b => exact ⟨a, b, rfl⟩
      refine ⟨(x :: w0) :: ws0, by simp, ?_⟩
      simp [splitOn, hx, hws]

lemma getLastD_splitOn (sep : Char) (xs ys : List Char) (h : sep ∉ ys) :
    (splitOn sep (xs ++ sep :: ys)).getLastD [] = ys := by
  obtain ⟨ws, _, hws⟩ := splitOn_last_after_sep sep ys h xs
  rw [hws, List.getLastD_concat]

lemma dropWhile_cut_eq_self (cut : Char) (l : List Char) (h : cut ∉ l) :
    l.dropWhile (fun c => c = cut) = l := by
  cases l with
  | nil => rfl
  | cons a t =>
    rw [List.dropWhile_cons, if_neg]
    simp only [decide_eq_true_eq]
    exact fun he => h (by rw [he]; exact List.mem_cons_self _ _)

lemma trimChar_concat_cut (cut : Char) (tok : List Char) (hmem : cut ∉ tok)
    (hne : tok ≠ []) : trimChar cut (tok ++ [cut]) = tok := by
  obtain ⟨c, t, rfl⟩ : ∃ c t, tok = c :: t := by
    cases tok with
    | nil => exact absurd rfl hne
    | cons a b => exact ⟨a, b, rfl⟩
  rw [List.mem_cons, not_or] at hmem
  obtain ⟨hc, ht⟩ := hmem
  unfold trimChar
  rw [List.cons_append, List.dropWhile_cons,
    if_neg (by simp only [decide_eq_true_eq]; exact fun he => hc he.symm)]
  rw [show (c :: (t ++ [cut])).reverse = cut :: (t.reverse ++ [c]) by simp]
  rw [List.dropWhile_cons, if_pos (by simp)]
  rw [show t.reverse ++ [c] = (c :: t).reverse by simp]
  rw [dropWhile_cut_eq_self cut (c :: t).reverse
    (by rw [List.mem_reverse, List.mem_cons]; exact not_or.mpr ⟨hc, ht⟩)]
  simp

lemma fields_cons (c : Char) (cs : List Char) :
    fields (c :: cs) =
      if isFieldSep c then fields cs
      else
        match fields cs with
        | [] => [[c]]
        | w :: ws =>
          match cs with
          | [] => [[c]]
          | c' :: _ => if isFieldSep c' then [c] :: w :: ws else (c :: w) :: ws := rfl

lemma fields_no_sep (l : List Char) (hne : l ≠ []) (h : ∀ c ∈ l, isFieldSep c = false) :
    fields l = [l] := by
  induction l with
  | nil => exact absurd rfl hne
  | cons c cs ih =>
    have hc := h c (List.mem_cons_self c cs)
    cases cs with
    | nil =>
      rw [fields_cons, if_neg (by simp [hc])]
      exact rfl
    | cons c' t =>
      have ih' := ih (by simp) (fun x hx => h x (List.mem_cons_of_mem c hx))
      have hc' := h c' (by simp)
      rw [fields_cons, if_neg (by simp [hc]), ih']
      simp [hc']

lemma fields_last_token (tok : List Char) (hne : tok ≠ [])
    (htok : ∀ c ∈ tok, isFieldSep c = false) :
    ∀ xs : List Char, ∃ ws, fields (xs ++ ' ' :: tok) = ws ++ [tok] ∧
      (∀ d xs2, xs = d :: xs2 → isFieldSep d = false → ws ≠ []) := by
  have ht : fields (' ' :: tok) = [tok] := by
    rw [fields_cons, if_pos (show isFieldSep ' ' = true from rfl),
      fields_no_sep tok hne htok]
  intro xs
  induction xs with
  | nil =>
    refine ⟨[], ?_, fun d xs2 he _ => by cases he⟩
    simpa using ht
  | cons x xs ih =>
    obtain ⟨ws, hws, hcond⟩ := ih
    by_cases hx : isFieldSep x = true
    · refine ⟨ws, ?_, ?_⟩
      · rw [List.cons_append, fields_cons, if_pos hx]
        exact hws
      · intro d xs2 he hd
        injection he with he1 he2
        rw [he1, hd] at hx
        cases hx
    · have hxf : isFieldSep x = false := by simpa using hx
      cases xs with
      | nil =>
        refine ⟨[[x]], ?_, fun d xs2 he hd => by simp⟩
        rw [List.cons_append, List.nil_append, fields_cons, if_neg (by simp [hxf]), ht]
        exact rfl
      | cons y ys =>
        by_cases hy : isFieldSep y = true
        · refine ⟨[x] :: ws, ?_, fun d xs2 he hd => by simp⟩
          cases ws with
          | nil =>
            rw [List.nil_append] at hws
            simp only [List.cons_append] at hws ⊢
            rw [fields_cons, if_neg (by simp [hxf]), hws]
            simp [hy]
          | cons w0 ws0 =>
            simp only [List.cons_append] at hws ⊢
            rw [fields_cons, if_neg (by simp [hxf]), hws]
            simp [hy]
        · have hyf : isFieldSep y = false := by simpa using hy
          have hwne : ws ≠ [] := hcond y ys rfl hyf
          obtain ⟨w0, ws0, rfl⟩ : ∃ a b, ws = a :: b := by
            cases ws with
            | nil => exact absurd rfl hwne
            | cons a b => exact ⟨a, b, rfl⟩
          refine ⟨(x :: w0) :: ws0, ?_, fun d xs2 he hd => by simp⟩
          simp only [List.cons_append] at hws ⊢
          rw [fields_cons, if_neg (by simp [hxf]), hws]
          simp [hyf]

lemma revtrim_newline (Y tok : List Char) (h2 : '\n' ∉ tok) (h5 : tok ≠ []) :
    ((Y ++ (tok ++ ['\n'])).reverse.dropWhile (fun c => c = '\n')).reverse = Y ++ tok := by
  obtain ⟨d, r, hdr⟩ : ∃ a b, tok.reverse = a :: b := by
    cases hr : tok.reverse with
    | nil => exact absurd (List.reverse_eq_nil_iff.mp hr) h5
    | cons a b => exact ⟨a, b, rfl⟩
  have hd : d ∈ tok := by
    rw [← List.mem_reverse, hdr]
    exact List.mem_cons_self _ _
  have hdn : ¬ d = '\n' := fun he => h2 (he ▸ hd)
  rw [show (Y ++ (tok ++ ['\n'])).reverse = '\n' :: (tok.reverse ++ Y.reverse) by simp]
  rw [List.dropWhile_cons, if_pos (by simp), hdr, List.cons_append, List.dropWhile_cons,
    if_neg (by simp only [decide_eq_true_eq]; exact hdn)]
  rw [show d :: (r ++ Y.reverse) = (d :: r) ++ Y.reverse from rfl, ← hdr]
  simp

end QuotaManager

namespace Claims

open QuotaManager Connection

/-- C1 (counterexample).  The claim asserts that a nonzero `ByteSoft = b`
always makes the block-soft value passed to `setquota` equal to
`ceil(b / 1024)` over exact integers.  At `b = 2 ^ 64 - 1` the `uint64`
addition `b + 1024` wraps, so `SetLimits` passes block-soft `0`, while the
exact-integer ceiling is `2 ^ 54`. -/
theorem C1_counterexample :
    (U64 - 1 ≠ 0) ∧
    (SetLimits { blockSoft := 0, blockHard := 0, inodeSoft := 0, inodeHard := 0,
                 byteSoft := U64 - 1, byteHard := 0 }).blockSoft = 0 ∧
    (U64 - 1) ⌈/⌉ QUOTA_BLOCK_SIZE = 2 ^ 54 ∧ (0 : Nat) ≠ 2 ^ 54 := by
  refine ⟨by decide, ?_, by decide, by decide⟩
  decide

/-- C1 (amended).  Per field: when `ByteSoft = b` is zero, the
caller-supplied `BlockSoft` is passed through untouched; when `b` is
nonzero, the block-soft value passed to the quota-setting tool is the
`uint64`-computed `((b + 1023) mod 2 ^ 64) / 1024`, which equals the
exact-integer `ceil(b / 1024)` whenever `b + 1023 < 2 ^ 64`.  The same
holds for `ByteHard`/`BlockHard`, each field conditioned only on its own
bound, and the derived block values are exactly the ones placed in the
`setquota` argument vector. -/
theorem C1_setLimits_derives_ceil_blocks (uid : Nat) (mp : String) (l : DiskLimits) :
    (l.byteSoft = 0 → (SetLimits l).blockSoft = l.blockSoft) ∧
    (l.byteSoft ≠ 0 →
      (SetLimits l).blockSoft
        = (l.byteSoft + QUOTA_BLOCK_SIZE - 1) % U64 / QUOTA_BLOCK_SIZE) ∧
    (l.byteSoft ≠ 0 → l.byteSoft + QUOTA_BLOCK_SIZE - 1 < U64 →
      (SetLimits l).blockSoft = l.byteSoft ⌈/⌉ QUOTA_BLOCK_SIZE) ∧
    (l.byteHard = 0 → (SetLimits l).blockHard = l.blockHard) ∧
    (l.byteHard ≠ 0 →
      (SetLimits l).blockHard
        = (l.byteHard + QUOTA_BLOCK_SIZE - 1) % U64 / QUOTA_BLOCK_SIZE) ∧
    (l.byteHard ≠ 0 → l.byteHard + QUOTA_BLOCK_SIZE - 1 < U64 →
      (SetLimits l).blockHard = l.byteHard ⌈/⌉ QUOTA_BLOCK_SIZE) ∧
    setquotaArgs uid mp l =
      ["-u", toString uid,
       toString ((SetLimits l).blockSoft), toString ((SetLimits l).blockHard),
       toString l.inodeSoft, toString l.inodeHard, mp] := by
  refine ⟨?_, ?_, ?_, ?_, ?_, ?_, ?_⟩
  · intro h
    rw [setLimits_blockSoft, if_pos h]
  · intro h
    rw [setLimits_blockSoft, if_neg h]
  · intro h hlt
    rw [setLimits_blockSoft, if_neg h, Nat.mod_eq_of_lt hlt, Nat.ceilDiv_eq_add_pred_div]
  · intro h
    rw [setLimits_blockHard, if_pos h]
  · intro h
    rw [setLimits_blockHard, if_neg h]
  · intro h hlt
    rw [setLimits_blockHard, if_neg h, Nat.mod_eq_of_lt hlt, Nat.ceilDiv_eq_add_pred_div]
  · simp [setquotaArgs, setLimits_inodeSoft, setLimits_inodeHard]

/-- C1 (witness): the amended theorem applied at
`DiskLimits ⟨5, 6, 7, 8, 2048, 0⟩` (soft byte limit nonzero and in range,
hard byte limit zero — exercising both the ceiling case and the untouched
case) and at `DiskLimits ⟨0, 0, 0, 0, 2 ^ 64 - 1, 0⟩` (the wrap case of
the universal `uint64` formula). -/
theorem C1_setLimits_derives_ceil_blocks_witness :
    ((2048 : Nat) ≠ 0) ∧ ((2048 : Nat) + QUOTA_BLOCK_SIZE - 1 < U64) ∧
    (SetLimits ⟨5, 6, 7, 8, 2048, 0⟩).blockSoft = (2048 : Nat) ⌈/⌉ QUOTA_BLOCK_SIZE ∧
    (SetLimits ⟨5, 6, 7, 8, 2048, 0⟩).blockSoft = 2 ∧
    (SetLimits ⟨5, 6, 7, 8, 2048, 0⟩).blockHard = 6 ∧
    (U64 - 1 ≠ 0) ∧
    (SetLimits ⟨0, 0, 0, 0, U64 - 1, 0⟩).blockSoft
        = (U64 - 1 + QUOTA_BLOCK_SIZE - 1) % U64 / QUOTA_BLOCK_SIZE ∧
    setquotaArgs 1000 "/var/containers" ⟨5, 6, 7, 8, 2048, 0⟩ =
      ["-u", toString (1000 : Nat),
       toString ((SetLimits ⟨5, 6, 7, 8, 2048, 0⟩).blockSoft),
       toString ((SetLimits ⟨5, 6, 7, 8, 2048, 0⟩).blockHard),
       toString (7 : Nat), toString (8 : Nat), "/var/containers"] := by
  refine ⟨by decide, by decide, ?_, by decide, ?_, by decide, ?_, ?_⟩
  · exact (C1_setLimits_derives_ceil_blocks 1000 "/var/containers"
      ⟨5, 6, 7, 8, 2048, 0⟩).2.2.1 (by decide) (by decide)
  · exact (C1_setLimits_derives_ceil_blocks 1000 "/var/containers"
      ⟨5, 6, 7, 8, 2048, 0⟩).2.2.2.1 rfl
  · exact (C1_setLimits_derives_ceil_blocks 1000 "/var/containers"
      ⟨0, 0, 0, 0, U64 - 1, 0⟩).2.1 (by decide)
  · exact (C1_setLimits_derives_ceil_blocks 1000 "/var/containers"
      ⟨5, 6, 7, 8, 2048, 0⟩).2.2.2.2.2.2

/-- C10 (counterexample).  The claim asserts that a nonzero `ByteSoft`
makes the exact-integer value `ceil(ByteSoft / 1024)` overwrite the
caller-supplied `BlockSoft`.  At `ByteSoft = 2 ^ 64 - 512` with a nonzero
caller-supplied `BlockSoft = 7`, `SetLimits` does overwrite `BlockSoft`,
but with the wrapped value `0`, not the exact-integer ceiling. -/
theorem C10_counterexample :
    (U64 - 512 ≠ 0) ∧
    (SetLimits { blockSoft := 7, blockHard := 9, inodeSoft := 0, inodeHard := 0,
                 byteSoft := U64 - 512, byteHard := 0 }).blockSoft = 0 ∧
    (U64 - 512) ⌈/⌉ QUOTA_BLOCK_SIZE = 2 ^ 54 ∧ (0 : Nat) ≠ 2 ^ 54 := by
  refine ⟨by decide, ?_, by decide, by decide⟩
  decide

/-- C10 (amended).  Per field: whenever `ByteSoft` is nonzero — whatever
the value of `ByteHard` — `SetLimits` overwrites the caller-supplied
`BlockSoft`, whatever that value, including a nonzero one, with the
`uint64`-computed value `((ByteSoft + 1023) mod 2 ^ 64) / 1024`, which
equals the exact-integer `ceil(ByteSoft / 1024)` whenever
`ByteSoft + 1023 < 2 ^ 64`; likewise, independently, a nonzero `ByteHard`
overwrites `BlockHard`.  Nonzero byte limits take precedence over
explicitly supplied block limits, not only when the block limit is
absent. -/
theorem C10_bytes_overwrite_blocks (l : DiskLimits) (bs bh : Nat) :
    (l.byteSoft ≠ 0 →
      (SetLimits { l with blockSoft := bs, blockHard := bh }).blockSoft
          = (SetLimits l).blockSoft ∧
      (SetLimits l).blockSoft
          = (l.byteSoft + QUOTA_BLOCK_SIZE - 1) % U64 / QUOTA_BLOCK_SIZE ∧
      (l.byteSoft + QUOTA_BLOCK_SIZE - 1 < U64 →
        (SetLimits l).blockSoft = l.byteSoft ⌈/⌉ QUOTA_BLOCK_SIZE)) ∧
    (l.byteHard ≠ 0 →
      (SetLimits { l with blockSoft := bs, blockHard := bh }).blockHard
          = (SetLimits l).blockHard ∧
      (SetLimits l).blockHard
          = (l.byteHard + QUOTA_BLOCK_SIZE - 1) % U64 / QUOTA_BLOCK_SIZE ∧
      (l.byteHard + QUOTA_BLOCK_SIZE - 1 < U64 →
        (SetLimits l).blockHard = l.byteHard ⌈/⌉ QUOTA_BLOCK_SIZE)) := by
  constructor
  · intro hs
    refine ⟨?_, ?_, ?_⟩
    · rw [setLimits_blockSoft, setLimits_blockSoft]
      simp [hs]
    · rw [setLimits_blockSoft]
      simp [hs]
    · intro hlt
      rw [setLimits_blockSoft, if_neg hs, Nat.mod_eq_of_lt hlt, Nat.ceilDiv_eq_add_pred_div]
  · intro hh
    refine ⟨?_, ?_, ?_⟩
    · rw [setLimits_blockHard, setLimits_blockHard]
      simp [hh]
    · rw [setLimits_blockHard]
      simp [hh]
    · intro hlt
      rw [setLimits_blockHard, if_neg hh, Nat.mod_eq_of_lt hlt, Nat.ceilDiv_eq_add_pred_div]

/-- C10 (witness): the amended theorem applied at
`DiskLimits ⟨1, 2, 0, 0, 2 ^ 64 - 512, 0⟩` — the configuration of the
counterexample, a nonzero soft byte limit with `ByteHard = 0` — where the
nonzero caller-supplied `BlockSoft` is overwritten with the wrapped value,
and at `DiskLimits ⟨1, 2, 0, 0, 0, 1025⟩`, where only the hard byte limit
is nonzero and the overwriting value is the exact ceiling 2. -/
theorem C10_bytes_overwrite_blocks_witness :
    (U64 - 512 ≠ 0) ∧
    ((SetLimits ⟨77, 88, 0, 0, U64 - 512, 0⟩).blockSoft
        = (SetLimits ⟨1, 2, 0, 0, U64 - 512, 0⟩).blockSoft ∧
     (SetLimits ⟨1, 2, 0, 0, U64 - 512, 0⟩).blockSoft
        = (U64 - 512 + QUOTA_BLOCK_SIZE - 1) % U64 / QUOTA_BLOCK_SIZE ∧
     (U64 - 512 + QUOTA_BLOCK_SIZE - 1 < U64 →
       (SetLimits ⟨1, 2, 0, 0, U64 - 512, 0⟩).blockSoft
          = (U64 - 512) ⌈/⌉ QUOTA_BLOCK_SIZE)) ∧
    (SetLimits ⟨77, 88, 0, 0, U64 - 512, 0⟩).blockSoft = 0 ∧
    ((1025 : Nat) ≠ 0) ∧
    ((SetLimits ⟨77, 88, 0, 0, 0, 1025⟩).blockHard
        = (SetLimits ⟨1, 2, 0, 0, 0, 1025⟩).blockHard ∧
     (SetLimits ⟨1, 2, 0, 0, 0, 1025⟩).blockHard
        = ((1025 : Nat) + QUOTA_BLOCK_SIZE - 1) % U64 / QUOTA_BLOCK_SIZE ∧
     ((1025 : Nat) + QUOTA_BLOCK_SIZE - 1 < U64 →
       (SetLimits ⟨1, 2, 0, 0, 0, 1025⟩).blockHard = (1025 : Nat) ⌈/⌉ QUOTA_BLOCK_SIZE)) ∧
    (SetLimits ⟨77, 88, 0, 0, 0, 1025⟩).blockHard = 2 := by
  refine ⟨by decide, ?_, by decide, by decide, ?_, by decide⟩
  · exact (C10_bytes_overwrite_blocks ⟨1, 2, 0, 0, U64 - 512, 0⟩ 77 88).1 (by decide)
  · exact (C10_bytes_overwrite_blocks ⟨1, 2, 0, 0, 0, 1025⟩ 77 88).2 (by decide)

/-- C3.  For every `repquota` output line whose scan under the respective
function's destination widths yields eight numeric fields `v1 … v8`,
`GetLimits` selects the 1-indexed fields 3, 4, 7, 8 as block soft/hard
and inode soft/hard (all other result fields zero), and `GetUsage`
selects fields 2 and 6 as bytes used and inodes used; all other fields
are discarded. -/
theorem C3_repquota_field_selection (line : List Char)
    (v1 v2 v3 v4 v5 v6 v7 v8 : Nat) :
    (scanf8 getLimitsWidths line = some [v1, v2, v3, v4, v5, v6, v7, v8] →
      GetLimits line = some { blockSoft := v3, blockHard := v4, inodeSoft := v7,
                              inodeHard := v8, byteSoft := 0, byteHard := 0 }) ∧
    (scanf8 getUsageWidths line = some [v1, v2, v3, v4, v5, v6, v7, v8] →
      GetUsage line = some { bytesUsed := v2, inodesUsed := v6 }) := by
  constructor
  · intro h
    simp [GetLimits, h]
  · intro h
    simp [GetUsage, h]

/-- C3 (witness): on the line `0 500 1000 1200 0 300 900 950` both scans
yield those eight fields, `GetLimits` returns block soft/hard 1000/1200
and inode soft/hard 900/950, and `GetUsage` returns 500 bytes and 300
inodes used.  On a line whose second field is `2 ^ 33` — beyond `uint32`
but within the `uint64` destination `BytesUsed` — `GetUsage` still
succeeds and returns it. -/
theorem C3_repquota_field_selection_witness :
    scanf8 getLimitsWidths ("0 500 1000 1200 0 300 900 950".data)
        = some [0, 500, 1000, 1200, 0, 300, 900, 950] ∧
    scanf8 getUsageWidths ("0 500 1000 1200 0 300 900 950".data)
        = some [0, 500, 1000, 1200, 0, 300, 900, 950] ∧
    GetLimits ("0 500 1000 1200 0 300 900 950".data)
        = some { blockSoft := 1000, blockHard := 1200, inodeSoft := 900, inodeHard := 950,
                 byteSoft := 0, byteHard := 0 } ∧
    GetUsage ("0 500 1000 1200 0 300 900 950".data)
        = some { bytesUsed := 500, inodesUsed := 300 } ∧
    scanf8 getUsageWidths ("0 8589934592 1000 1200 0 300 900 950".data)
        = some [0, 8589934592, 1000, 1200, 0, 300, 900, 950] ∧
    GetUsage ("0 8589934592 1000 1200 0 300 900 950".data)
        = some { bytesUsed := 8589934592, inodesUsed := 300 } :=
  ⟨by decide, by decide,
   (C3_repquota_field_selection ("0 500 1000 1200 0 300 900 950".data)
     0 500 1000 1200 0 300 900 950).1 (by decide),
   (C3_repquota_field_selection ("0 500 1000 1200 0 300 900 950".data)
     0 500 1000 1200 0 300 900 950).2 (by decide),
   by decide,
   (C3_repquota_field_selection ("0 8589934592 1000 1200 0 300 900 950".data)
     0 8589934592 1000 1200 0 300 900 950).2 (by decide)⟩

/-- C2 (counterexample).  The claim asserts that `LimitDisk` performs the
byte-to-block derivation before encoding the request.  For limits with
`ByteSoft = 1` and `BlockSoft = 0` the derivation would put block-soft
`ceil(1/1024) = 1` in the encoded request, but `LimitDisk` encodes the
caller-supplied `BlockSoft = 0` untouched. -/
theorem C2_counterexample :
    LimitDisk.request "handle" ⟨0, 0, 0, 0, 1, 0⟩
        ≠ specLimitDiskRequestDerived "handle" ⟨0, 0, 0, 0, 1, 0⟩ ∧
    (LimitDisk.request "handle" ⟨0, 0, 0, 0, 1, 0⟩).blockSoft = some 0 ∧
    (specLimitDiskRequestDerived "handle" ⟨0, 0, 0, 0, 1, 0⟩).blockSoft = some 1 := by
  refine ⟨by decide, by decide, by decide⟩

/-- C2 (amended).  `LimitDisk` performs no byte-to-block pre-processing:
the encoded `LimitDiskRequest` carries the caller-supplied block and byte
values untouched (the derivation of §3 lives only in the quota backend's
`SetLimits`), and the get path (`CurrentDiskLimits`) populates nothing but
the handle; the encoded set request coincides with the spec's derived
request exactly when the derivation leaves the limits unchanged. -/
theorem C2_limitDisk_encodes_verbatim (h : String) (l : DiskLimits) :
    LimitDisk.request h l
      = { handle := some h, blockSoft := some l.blockSoft, blockHard := some l.blockHard,
          inodeSoft := some l.inodeSoft, inodeHard := some l.inodeHard,
          byteSoft := some l.byteSoft, byteHard := some l.byteHard } ∧
    CurrentDiskLimits.request h
      = { handle := some h, blockSoft := none, blockHard := none, inodeSoft := none,
          inodeHard := none, byteSoft := none, byteHard := none } ∧
    (LimitDisk.request h l = specLimitDiskRequestDerived h l ↔ QuotaManager.SetLimits l = l) := by
  refine ⟨rfl, rfl, ?_⟩
  simp [LimitDisk.request, specLimitDiskRequestDerived, LimitDiskRequest.mk.injEq,
    DiskLimits.ext_iff, eq_comm]

/-- C5 (counterexample).  The claim asserts that any 2xx status is treated
as success by the streaming operations as well.  A `201 Created` response
is 2xx, yet all three streaming-path helpers reject it with a transport
error carrying the status text. -/
theorem C5_counterexample :
    ((200 : Nat) ≤ 201 ∧ (201 : Nat) ≤ 299) ∧
    postWithStreamedResponse { statusCode := 201, status := "201 Created", body := (0 : Nat) }
      = Except.error "201 Created" ∧
    postWithProcessPayloadResponse
        { statusCode := 201, status := "201 Created", body := ([] : List ReadResult) }
      = Except.error "201 Created" ∧
    postWithStreamedRequest { statusCode := 201, status := "201 Created", body := (0 : Nat) }
      = Except.error "201 Created" := by
  exact ⟨⟨by decide, by decide⟩, rfl, rfl, rfl⟩

/-- C5 (amended).  The simple request/response operations (via `post`)
treat any 2xx status as success and any other status as a transport error
carrying the status text; the streaming operations (run, attach,
stream-in, stream-out) treat exactly status 200 as success and every other
status — other 2xx codes included — as a transport error carrying the
status text. -/
theorem C5_status_handling {α β γ : Type} (resp1 : HTTPResponse (Except String α))
    (resp2 : HTTPResponse β) (resp3 : HTTPResponse γ) :
    (200 ≤ resp1.statusCode ∧ resp1.statusCode ≤ 299 → post resp1 = resp1.body) ∧
    (¬ (200 ≤ resp1.statusCode ∧ resp1.statusCode ≤ 299) →
      post resp1 = Except.error resp1.status) ∧
    (resp2.statusCode = 200 →
      postWithStreamedResponse resp2 = Except.ok resp2.body ∧
      postWithProcessPayloadResponse resp2 = Except.ok resp2.body) ∧
    (resp2.statusCode ≠ 200 →
      postWithStreamedResponse resp2 = Except.error resp2.status ∧
      postWithProcessPayloadResponse resp2 = Except.error resp2.status) ∧
    (resp3.statusCode = 200 → postWithStreamedRequest resp3 = Except.ok ()) ∧
    (resp3.statusCode ≠ 200 → postWithStreamedRequest resp3 = Except.error resp3.status) := by
  refine ⟨?_, ?_, ?_, ?_, ?_, ?_⟩
  · rintro ⟨ha, hb⟩
    rw [post, if_neg (by omega)]
  · intro hn
    rw [post, if_pos (by omega)]
  · intro h
    exact ⟨by rw [postWithStreamedResponse, if_neg (by omega)],
           by rw [postWithProcessPayloadResponse, if_neg (by omega)]⟩
  · intro h
    exact ⟨by rw [postWithStreamedResponse, if_pos h],
           by rw [postWithProcessPayloadResponse, if_pos h]⟩
  · intro h
    rw [postWithStreamedRequest, if_neg (by omega)]
  · intro h
    rw [postWithStreamedRequest, if_pos h]

/-- C5 (witness): the amended theorem applied at concrete responses — a
204 simple-path response succeeds, a 500 simple-path response errors with
its status text, a 200 streamed response succeeds, a 404 streamed response
errors, and likewise for the streamed-request path. -/
theorem C5_status_handling_witness :
    post { statusCode := 204, status := "204 No Content", body := Except.ok (7 : Nat) }
      = Except.ok 7 ∧
    post { statusCode := 500, status := "500 Internal Server Error",
           body := Except.ok (7 : Nat) }
      = Except.error "500 Internal Server Error" ∧
    postWithStreamedResponse { statusCode := 200, status := "200 OK", body := (3 : Nat) }
      = Except.ok 3 ∧
    postWithStreamedResponse { statusCode := 404, status := "404 Not Found", body := (3 : Nat) }
      = Except.error "404 Not Found" ∧
    postWithStreamedRequest { statusCode := 200, status := "200 OK", body := (3 : Nat) }
      = Except.ok () ∧
    postWithStreamedRequest { statusCode := 404, status := "404 Not Found", body := (3 : Nat) }
      = Except.error "404 Not Found" := by
  refine ⟨?_, ?_, ?_, ?_, ?_, ?_⟩
  · exact (C5_status_handling ⟨204, "204 No Content", Except.ok (7 : Nat)⟩
      ⟨200, "200 OK", (0 : Nat)⟩ ⟨200, "200 OK", (0 : Nat)⟩).1 ⟨by decide, by decide⟩
  · exact (C5_status_handling ⟨500, "500 Internal Server Error", Except.ok (7 : Nat)⟩
      ⟨200, "200 OK", (0 : Nat)⟩ ⟨200, "200 OK", (0 : Nat)⟩).2.1 (by decide)
  · exact ((C5_status_handling ⟨200, "200 OK", Except.ok (0 : Nat)⟩
      ⟨200, "200 OK", (3 : Nat)⟩ ⟨200, "200 OK", (0 : Nat)⟩).2.2.1 (by decide)).1
  · exact ((C5_status_handling ⟨200, "200 OK", Except.ok (0 : Nat)⟩
      ⟨404, "404 Not Found", (3 : Nat)⟩ ⟨200, "200 OK", (0 : Nat)⟩).2.2.2.1 (by decide)).1
  · exact (C5_status_handling ⟨200, "200 OK", Except.ok (0 : Nat)⟩
      ⟨200, "200 OK", (0 : Nat)⟩ ⟨200, "200 OK", (3 : Nat)⟩).2.2.2.2.1 (by decide)
  · exact (C5_status_handling ⟨200, "200 OK", Except.ok (0 : Nat)⟩
      ⟨200, "200 OK", (0 : Nat)⟩ ⟨404, "404 Not Found", (3 : Nat)⟩).2.2.2.2.2 (by decide)

/-- C6 (counterexample).  The claim asserts that every streaming operation
(run, attach, stream-in, stream-out) posts through the client constructed
with keep-alive disabled.  `Run` and `Attach` post through
`postWithProcessPayloadResponse`, which uses the default `httpClient`, not
the no-keepalive client. -/
theorem C6_counterexample :
    runClient New ≠ New.noKeepaliveClient ∧
    (runClient New).disableKeepAlives = false ∧
    attachClient New ≠ New.noKeepaliveClient ∧
    (attachClient New).disableKeepAlives = false := by
  exact ⟨by decide, by decide, by decide, by decide⟩

/-- C6 (amended).  Of the streaming operations, only stream-in and
stream-out issue their requests through the client constructed with
keep-alive disabled; run and attach issue theirs through the default
keep-alive client, relying on the still-open response body of that
client. -/
theorem C6_keepalive_clients :
    streamInClient New = New.noKeepaliveClient ∧
    streamOutClient New = New.noKeepaliveClient ∧
    (streamInClient New).disableKeepAlives = true ∧
    (streamOutClient New).disableKeepAlives = true ∧
    runClient New = New.httpClient ∧
    attachClient New = New.httpClient ∧
    (runClient New).disableKeepAlives = false ∧
    (attachClient New).disableKeepAlives = false := by
  exact ⟨rfl, rfl, rfl, rfl, rfl, rfl, rfl, rfl⟩

/-- C8.  For each of the four limit kinds, the get accessor sends a
request with only the handle populated, the set mutator sends a request of
the identical message type to the identical route with the value fields
additionally populated, and both decode the response through the identical
path. -/
theorem C8_get_set_symmetry (h : String) (bl : BandwidthLimits) (cl : CPULimits)
    (dl : DiskLimits) (ml : MemoryLimits) :
    (LimitBandwidth.route = CurrentBandwidthLimits.route ∧
     CurrentBandwidthLimits.request h = { handle := some h, rate := none, burst := none } ∧
     LimitBandwidth.request h bl
       = { handle := some h, rate := some bl.rateInBytesPerSecond,
           burst := some bl.burstRateInBytesPerSecond } ∧
     (∀ res, LimitBandwidth.decode res = CurrentBandwidthLimits.decode res)) ∧
    (LimitCPU.route = CurrentCPULimits.route ∧
     CurrentCPULimits.request h = { handle := some h, limitInShares := none } ∧
     LimitCPU.request h cl = { handle := some h, limitInShares := some cl.limitInShares } ∧
     (∀ res, LimitCPU.decode res = CurrentCPULimits.decode res)) ∧
    (LimitDisk.route = CurrentDiskLimits.route ∧
     CurrentDiskLimits.request h
       = { handle := some h, blockSoft := none, blockHard := none, inodeSoft := none,
           inodeHard := none, byteSoft := none, byteHard := none } ∧
     LimitDisk.request h dl
       = { handle := some h, blockSoft := some dl.blockSoft, blockHard := some dl.blockHard,
           inodeSoft := some dl.inodeSoft, inodeHard := some dl.inodeHard,
           byteSoft := some dl.byteSoft, byteHard := some dl.byteHard } ∧
     (∀ res, LimitDisk.decode res = CurrentDiskLimits.decode res)) ∧
    (LimitMemory.route = CurrentMemoryLimits.route ∧
     CurrentMemoryLimits.request h = { handle := some h, limitInBytes := none } ∧
     LimitMemory.request h ml = { handle := some h, limitInBytes := some ml.limitInBytes } ∧
     (∀ res, LimitMemory.decode res = CurrentMemoryLimits.decode res)) :=
  ⟨⟨rfl, rfl, rfl, fun _ => rfl⟩, ⟨rfl, rfl, rfl, fun _ => rfl⟩,
   ⟨rfl, rfl, rfl, fun _ => rfl⟩, ⟨rfl, rfl, rfl, fun _ => rfl⟩⟩

/-- C9.  On a 200 response, `Run` synchronously reads exactly one message
from the body, returns the process ID carried by that first message, and
hands only the remainder of the body to the stream; `Attach` reads no
first message — the whole body is decoded onto the stream channel. -/
theorem C9_run_first_message (resp : HTTPResponse (List ReadResult))
    (p : ProcessPayload) (rest : List ReadResult)
    (hst : resp.statusCode = 200) (hb : resp.body = ReadResult.msg p :: rest) :
    Run resp = Except.ok (p.processId.getD 0, streamPayloads rest) ∧
    Attach resp = Except.ok (streamPayloads resp.body) := by
  constructor
  · rw [Run, postWithProcessPayloadResponse, if_neg (by omega), hb]
  · rw [Attach, postWithProcessPayloadResponse, if_neg (by omega)]

/-- C9 (witness): the theorem applied at a concrete 200 response whose
first message carries process ID 55 followed by a chunk and an exit
status. -/
theorem C9_run_first_message_witness :
    Run { statusCode := 200, status := "200 OK",
          body := [ReadResult.msg { processId := some 55, source := none,
                                    data := none, exitStatus := none },
                   ReadResult.msg { processId := none, source := some PayloadSource.stdout,
                                    data := some "hi", exitStatus := none },
                   ReadResult.msg { processId := none, source := none,
                                    data := none, exitStatus := some 0 }] }
      = Except.ok ((some 55).getD 0,
          streamPayloads
            [ReadResult.msg { processId := none, source := some PayloadSource.stdout,
                              data := some "hi", exitStatus := none },
             ReadResult.msg { processId := none, source := none,
                              data := none, exitStatus := some 0 }]) ∧
    Attach { statusCode := 200, status := "200 OK",
             body := [ReadResult.msg { processId := some 55, source := none,
                                       data := none, exitStatus := none },
                      ReadResult.msg { processId := none, source := some PayloadSource.stdout,
                                       data := some "hi", exitStatus := none },
                      ReadResult.msg { processId := none, source := none,
                                       data := none, exitStatus := some 0 }] }
      = Except.ok (streamPayloads
          [ReadResult.msg { processId := some 55, source := none,
                            data := none, exitStatus := none },
           ReadResult.msg { processId := none, source := some PayloadSource.stdout,
                            data := some "hi", exitStatus := none },
           ReadResult.msg { processId := none, source := none,
                            data := none, exitStatus := some 0 }]) :=
  C9_run_first_message
    { statusCode := 200, status := "200 OK",
      body := [ReadResult.msg { processId := some 55, source := none,
                                data := none, exitStatus := none },
               ReadResult.msg { processId := none, source := some PayloadSource.stdout,
                                data := some "hi", exitStatus := none },
               ReadResult.msg { processId := none, source := none,
                                data := none, exitStatus := some 0 }] }
    { processId := some 55, source := none, data := none, exitStatus := none }
    [ReadResult.msg { processId := none, source := some PayloadSource.stdout,
                      data := some "hi", exitStatus := none },
     ReadResult.msg { processId := none, source := none,
                      data := none, exitStatus := some 0 }]
    rfl rfl

/-- Helper for C4: every item `streamPayloads` emits before the final one
carries no exit status. -/
lemma streamEmitted_dropLast_isNone (body : List ReadResult) :
    ((streamEmitted body).dropLast.all fun s => s.exitStatus.isNone) = true := by
  induction body with
  | nil => rfl
  | cons r rest ih =>
    cases r with
    | readErr => rfl
    | msg p =>
      cases hp : p.exitStatus with
      | some s => simp [streamEmitted, hp]
      | none =>
        simp only [streamEmitted, hp]
        cases he : streamEmitted rest with
        | nil => rfl
        | cons b t =>
          rw [he] at ih
          simpa [List.dropLast_cons₂, List.all_cons] using ih

/-- C4.  For every run/attach chunk stream, at most one emitted item
carries an exit status and it is the last item (every non-final item's
exit status is unset), the channel is closed and the response body
released on every path — a stream that ends or errors before any terminal
message included; and the stream (stdout "hello\n", stdout "goodbye\n",
exit 42) is observed as exactly three ordered items, the last carrying
exit status 42, with the channel closed immediately after. -/
theorem C4_stream_terminal_exit :
    (∀ body : List ReadResult,
      ((streamPayloads body).emitted.dropLast.all fun s => s.exitStatus.isNone) = true ∧
      (streamPayloads body).channelClosed = true ∧
      (streamPayloads body).readerClosed = true) ∧
    streamPayloads
        [ReadResult.msg { processId := none, source := some PayloadSource.stdout,
                          data := some "hello\n", exitStatus := none },
         ReadResult.msg { processId := none, source := some PayloadSource.stdout,
                          data := some "goodbye\n", exitStatus := none },
         ReadResult.msg { processId := none, source := none,
                          data := none, exitStatus := some 42 }]
      = { emitted :=
            [{ source := ProcessStreamSource.stdout, data := "hello\n", exitStatus := none },
             { source := ProcessStreamSource.stdout, data := "goodbye\n", exitStatus := none },
             { source := ProcessStreamSource.stdin, data := "", exitStatus := some 42 }],
          channelClosed := true, readerClosed := true } := by
  constructor
  · intro body
    exact ⟨streamEmitted_dropLast_isNone body, rfl, rfl⟩
  · rfl

/-- C7 (counterexample).  The claim asserts that the cached mount point
equals the last whitespace-separated token of the final line of the `df`
output.  `New` actually splits the whole output on single spaces and trims
newlines from the last piece, so for the output `"a b\nc\n"` it caches
`"b\nc"` while the final line's last token is `"c"`. -/
theorem C7_counterexample :
    QuotaManager.mountPointOf ("a b\nc\n".data)
        ≠ QuotaManager.specFinalLineLastToken ("a b\nc\n".data) ∧
    QuotaManager.mountPointOf ("a b\nc\n".data) = "b\nc".data ∧
    QuotaManager.specFinalLineLastToken ("a b\nc\n".data) = "c".data := by
  exact ⟨by decide, by decide, by decide⟩

/-- C7 (amended).  The cached mount point is the text after the last space
character of the whole `df -P` output, with newline characters trimmed.
For every output whose final line separates its last column by a space and
whose last token contains no space, tab or newline — the shape of every
`df -P` output — this coincides with the last whitespace-separated token
of the final line, the trailing newline removed; in particular the
spec's example output resolves to `/var/containers`. -/
theorem C7_mount_point_from_df (line1 pre2 tok : List Char)
    (h1 : '\n' ∉ pre2) (h2 : '\n' ∉ tok) (h3 : ' ' ∉ tok) (h4 : '\t' ∉ tok)
    (h5 : tok ≠ []) :
    QuotaManager.mountPointOf (line1 ++ '\n' :: (pre2 ++ ' ' :: (tok ++ ['\n']))) = tok ∧
    QuotaManager.specFinalLineLastToken
        (line1 ++ '\n' :: (pre2 ++ ' ' :: (tok ++ ['\n']))) = tok := by
  have htok : ∀ c ∈ tok, QuotaManager.isFieldSep c = false := by
    intro c hc
    have hcs : ¬ c = ' ' := fun he => h3 (he ▸ hc)
    have hct : ¬ c = '\t' := fun he => h4 (he ▸ hc)
    simp [QuotaManager.isFieldSep, hcs, hct]
  constructor
  · have hys : ' ' ∉ tok ++ ['\n'] := by
      simp only [List.mem_append, List.mem_singleton]
      rintro (hc | hc)
      · exact h3 hc
      · cases hc
    have hshape : line1 ++ '\n' :: (pre2 ++ ' ' :: (tok ++ ['\n']))
        = (line1 ++ '\n' :: pre2) ++ ' ' :: (tok ++ ['\n']) := by simp
    rw [QuotaManager.mountPointOf, hshape, QuotaManager.getLastD_splitOn ' ' _ _ hys]
    exact QuotaManager.trimChar_concat_cut '\n' tok h2 h5
  · have hline : '\n' ∉ pre2 ++ ' ' :: tok := by
      simp only [List.mem_append, List.mem_cons]
      rintro (hc | hc | hc)
      · exact h1 hc
      · cases hc
      · exact h2 hc
    have hshape : line1 ++ '\n' :: (pre2 ++ ' ' :: (tok ++ ['\n']))
        = (line1 ++ '\n' :: pre2 ++ [' ']) ++ (tok ++ ['\n']) := by simp
    rw [QuotaManager.specFinalLineLastToken, hshape,
      QuotaManager.revtrim_newline _ tok h2 h5]
    have hshape2 : (line1 ++ '\n' :: pre2 ++ [' ']) ++ tok
        = line1 ++ '\n' :: (pre2 ++ ' ' :: tok) := by simp
    rw [hshape2, QuotaManager.getLastD_splitOn '\n' _ _ hline]
    obtain ⟨ws, hws, _⟩ := QuotaManager.fields_last_token tok h5 htok pre2
    rw [hws, List.getLastD_concat]

/-- C7 (witness): the amended theorem applied at the spec's example
output — header line, then `/dev/sda1 100 50 50 50% /var/containers` —
both the source computation and the spec's final-line reading resolve the
mount point to `/var/containers`. -/
theorem C7_mount_point_from_df_witness :
    QuotaManager.mountPointOf
        ("Filesystem 1024-blocks Used Available Capacity Mounted on".data
          ++ '\n' :: ("/dev/sda1 100 50 50 50%".data
          ++ ' ' :: ("/var/containers".data ++ ['\n']))) = "/var/containers".data ∧
    QuotaManager.specFinalLineLastToken
        ("Filesystem 1024-blocks Used Available Capacity Mounted on".data
          ++ '\n' :: ("/dev/sda1 100 50 50 50%".data
          ++ ' ' :: ("/var/containers".data ++ ['\n']))) = "/var/containers".data :=
  C7_mount_point_from_df
    ("Filesystem 1024-blocks Used Available Capacity Mounted on".data)
    ("/dev/sda1 100 50 50 50%".data) ("/var/containers".data)
    (by decide) (by decide) (by decide) (by decide) (by decide)

end Claims

end Garden
